import Mathlib

/-!
# Verification of the pothole-detector session logic

Shallow embedding of the pothole detection / session aggregation logic of
the `pothole-detector` repository:

* `src/lib/utils/sensors.ts` — the pure classifier (`detectPothole`,
  `calculateSeverity`) and the haversine helper (`calculateDistance`);
* the Svelte session component (first revision in the source pack) —
  `startSession`, `stopSession`, `handleAccelerometerData`,
  `handleLocationData`, `confirmPothole`, `markFalsePositive`.

JavaScript numbers that can be NaN (the accelerometer axes) are embedded as
`JsNum`: either NaN or an exact value, modelled as a rational.  The source
compares `Math.sqrt(x*x + y*y + z*z)` against nonnegative constant
thresholds; `JsNum.sqrtGtQ` evaluates that comparison exactly
(`√m > t ↔ m > t²` for `m, t ≥ 0`, and `√` of NaN or a negative number is
NaN, which compares false).  The bridge lemma `sqrtGtQ_iff_lt_sqrt` proves
this encoding agrees with `Real.sqrt`.

Timestamps, coordinates and accumulated distances are embedded as rationals.
Event ids come from `generateEventId()` (wall clock + randomness) and the
current time from `Date.now()`; both are passed to the operations as
explicit parameters.  The haversine `calculateDistance` is transcendental,
so the location handler is parametric in the distance function; the real
haversine is defined separately and proved nonnegative
(`calculateDistance_nonneg`), which justifies the nonnegativity hypothesis
used where a claim needs it.
-/

namespace PotholeDetector

/-- A JavaScript number as used for sensor axes: NaN or an exact value
(embedded as a rational; the finite-precision rounding of IEEE doubles is
not modelled, the arithmetic here is exact). -/
inductive JsNum where
  | nan : JsNum
  | num : ℚ → JsNum
deriving DecidableEq, Repr

namespace JsNum

/-- JS addition: NaN propagates. -/
def add : JsNum → JsNum → JsNum
  | num a, num b => num (a + b)
  | _, _ => nan

/-- JS multiplication: NaN propagates. -/
def mul : JsNum → JsNum → JsNum
  | num a, num b => num (a * b)
  | _, _ => nan

/-- The comparison `Math.sqrt m > t` for a nonnegative rational threshold
`t`, evaluated exactly: `Math.sqrt` of NaN or of a negative number is NaN,
and any comparison with NaN is false; for `m ≥ 0` and `t ≥ 0`,
`√m > t ↔ m > t·t`. -/
def sqrtGtQ : JsNum → ℚ → Bool
  | nan, _ => false
  | num q, t => decide (0 ≤ q ∧ t * t < q)

end JsNum

/-- Type `AccelerometerReading` from `src/lib/types` (part_002): one 3-axis
motion sample, axes in m/s² (gravity-inclusive), plus a timestamp. -/
structure AccelerometerReading where
  x : JsNum
  y : JsNum
  z : JsNum
  timestamp : ℚ
deriving DecidableEq, Repr

/-- The squared magnitude `x*x + y*y + z*z` computed inside `detectPothole`
and `calculateSeverity` (left-associated, as JS evaluates it). -/
def magnitudeSq (reading : AccelerometerReading) : JsNum :=
  ((reading.x.mul reading.x).add (reading.y.mul reading.y)).add
    (reading.z.mul reading.z)

/-- Constant `POTHOLE_THRESHOLD = 15` (m/s²) from `sensors.ts`. -/
def POTHOLE_THRESHOLD : ℚ := 15

/-- Function `detectPothole` from `sensors.ts`: the magnitude
`Math.sqrt(x*x + y*y + z*z)` exceeds the fixed threshold 15. -/
def detectPothole (reading : AccelerometerReading) : Bool :=
  (magnitudeSq reading).sqrtGtQ POTHOLE_THRESHOLD

/-- The severity union type `'low' | 'medium' | 'high'`. -/
inductive Severity where
  | low : Severity
  | medium : Severity
  | high : Severity
deriving DecidableEq, Repr

/-- Function `calculateSeverity` from `sensors.ts`: magnitude `> 25 → high`,
`> 20 → medium`, otherwise `low`. -/
def calculateSeverity (reading : AccelerometerReading) : Severity :=
  if (magnitudeSq reading).sqrtGtQ 25 then .high
  else if (magnitudeSq reading).sqrtGtQ 20 then .medium
  else .low

/-! ## The haversine helper `calculateDistance`

`calculateDistance` in `sensors.ts` computes the great-circle distance in
meters with the haversine formula (`R = 6371e3`,
`c = 2 * Math.atan2(Math.sqrt(a), Math.sqrt(1-a))`).  It is transcendental,
so the session machine below is parametric in the distance function; this
real-valued definition exists to justify the nonnegativity hypothesis used
by the distance-accumulation claims. -/

/-- JS `Math.atan2(y, x)`. -/
noncomputable def atan2 (y x : ℝ) : ℝ :=
  if 0 < x then Real.arctan (y / x)
  else if x < 0 then
    (if 0 ≤ y then Real.arctan (y / x) + Real.pi
     else Real.arctan (y / x) - Real.pi)
  else
    (if 0 < y then Real.pi / 2
     else if y < 0 then -(Real.pi / 2) else 0)

/-- Function `calculateDistance(lat1, lon1, lat2, lon2)` from `sensors.ts`:
haversine distance in meters, Earth radius 6 371 000 m. -/
noncomputable def calculateDistance (lat1 lon1 lat2 lon2 : ℝ) : ℝ :=
  let R : ℝ := 6371e3
  let phi1 := lat1 * Real.pi / 180
  let phi2 := lat2 * Real.pi / 180
  let dphi := (lat2 - lat1) * Real.pi / 180
  let dlambda := (lon2 - lon1) * Real.pi / 180
  let a := Real.sin (dphi / 2) * Real.sin (dphi / 2) +
    Real.cos phi1 * Real.cos phi2 * Real.sin (dlambda / 2) * Real.sin (dlambda / 2)
  let c := 2 * atan2 (Real.sqrt a) (Real.sqrt (1 - a))
  R * c

/-! ## Data model (from `src/lib/types`, part_002) -/

/-- Type `LocationData`: one GPS fix.  Its `speed` is `number | null` in the source
(and may be missing), hence `Option ℚ`. -/
structure LocationData where
  latitude : ℚ
  longitude : ℚ
  speed : Option ℚ
  accuracy : ℚ
  timestamp : ℚ
deriving DecidableEq, Repr

/-- The label union `'pothole_detected' | 'pothole_confirmed' | 'false_positive'`. -/
inductive EventLabel where
  | pothole_detected : EventLabel
  | pothole_confirmed : EventLabel
  | false_positive : EventLabel
deriving DecidableEq, Repr

/-- Type `PotholeEvent`: one logged detection.  Its `userConfirmed` is
`true | false | null` in the source (`null` = pending), hence `Option Bool`. -/
structure PotholeEvent where
  id : String
  timestamp : ℚ
  accelerometer : AccelerometerReading
  location : LocationData
  speed : Option ℚ
  label : EventLabel
  userConfirmed : Option Bool
  severity : Severity
deriving DecidableEq, Repr

/-- Type `DrivingSession` from `src/lib/types`. -/
structure DrivingSession where
  id : String
  startTime : ℚ
  endTime : Option ℚ
  events : List PotholeEvent
  totalDistance : ℚ
  averageSpeed : ℚ
deriving DecidableEq, Repr

/-- Type `SessionStatus = 'idle' | 'active' | 'paused'`. -/
inductive SessionStatus where
  | idle : SessionStatus
  | active : SessionStatus
  | paused : SessionStatus
deriving DecidableEq, Repr

/-- The component-level reactive variables of the session page (first
revision in the source pack) that the session logic reads or writes.
UI-only state (map, markers, autocomplete, the formatted duration string,
timers) has no effect on the session data and is omitted;
`startCoords`/`destinationCoords` only matter through their null checks in
`startSession`, so only their presence is kept. -/
structure AppState where
  sessionStatus : SessionStatus
  sessionStartTime : ℚ
  currentSession : Option DrivingSession
  currentAccelerometer : Option AccelerometerReading
  currentLocation : Option LocationData
  currentSpeed : ℤ
  eventsCount : ℕ
  confirmedPotholes : ℕ
  falsePositives : ℕ
  totalDistance : ℚ
  lastLocation : Option LocationData
  permAccelerometer : Bool
  permLocation : Bool
  hasStartCoords : Bool
  hasDestinationCoords : Bool
deriving DecidableEq, Repr

/-- JS `Math.round`: round half toward +∞. -/
def jsRound (q : ℚ) : ℤ := ⌊q + 1 / 2⌋

/-! ## Session operations (first revision of the session component,
part_000 lines 667–856) -/

/-- Function `startSession()`: guarded on accelerometer permission, location
permission and both route coordinates; when the guards pass it
unconditionally installs a fresh session (there is no check that a session
is already active).  `generateEventId()` and `Date.now()` are passed in as
`newId` and `now`.  The timer/sensor/navigation side effects are not part
of the state. -/
def startSession (newId : String) (now : ℚ) (s : AppState) : AppState :=
  if !s.permAccelerometer then s
  else if !s.permLocation then s
  else if !(s.hasStartCoords && s.hasDestinationCoords) then s
  else
    { s with
      sessionStatus := .active
      sessionStartTime := now
      currentSession := some
        { id := newId, startTime := now, endTime := none, events := [],
          totalDistance := 0, averageSpeed := 0 }
      eventsCount := 0
      confirmedPotholes := 0
      falsePositives := 0
      totalDistance := 0 }

/-- Function `stopSession()`: no-op when no session exists; otherwise stamps
`endTime := now`, computes the duration in minutes, sets
`averageSpeed = duration > 0 ? totalDistance / duration * 60 : 0` and
`totalDistance`, hands the finished record to `exportSessionData` (returned
as the second component) and resets the session pointer and the current
readings.  `lastLocation`, `sessionStartTime` and the component counters
are left untouched by the source. -/
def stopSession (now : ℚ) (s : AppState) : AppState × Option DrivingSession :=
  match s.currentSession with
  | none => (s, none)
  | some sess =>
    let sess1 : DrivingSession := { sess with endTime := some now }
    let duration : ℚ := (now - sess1.startTime) / 1000 / 60
    let sess2 : DrivingSession :=
      { sess1 with
        averageSpeed := if 0 < duration then s.totalDistance / duration * 60 else 0
        totalDistance := s.totalDistance }
    ({ s with
        sessionStatus := .idle
        currentSession := none
        currentAccelerometer := none
        currentLocation := none
        currentSpeed := 0 },
      some sess2)

/-- The `PotholeEvent` literal constructed inside `handleAccelerometerData`. -/
def mkEvent (newId : String) (reading : AccelerometerReading)
    (loc : LocationData) : PotholeEvent :=
  { id := newId
    timestamp := reading.timestamp
    accelerometer := reading
    location := loc
    speed := loc.speed
    label := .pothole_detected
    userConfirmed := none
    severity := calculateSeverity reading }

/-- Function `handleAccelerometerData(reading)`: stores the current reading; when
`detectPothole(reading) && currentLocation && currentSession`, appends a new
event (id passed in as `newId`) and updates `eventsCount`.  The map marker,
console log and vibration are side effects outside the state.  The source
assigns `currentAccelerometer` before the check; since the check does not
read it, the assignment is folded into each branch here.  Note the source
appends every candidate, with no condition on its severity. -/
def handleAccelerometerData (newId : String) (reading : AccelerometerReading)
    (s : AppState) : AppState :=
  if detectPothole reading then
    match s.currentLocation, s.currentSession with
    | some loc, some sess =>
      let events1 := sess.events ++ [mkEvent newId reading loc]
      { s with
        currentAccelerometer := some reading
        currentSession := some { sess with events := events1 }
        eventsCount := events1.length }
    | _, _ => { s with currentAccelerometer := some reading }
  else { s with currentAccelerometer := some reading }

/-- The `currentSpeed` update of `handleLocationData`: a non-null speed is
converted to km/h (`Math.round(speed * 3.6)`); a null speed leaves the last
displayed speed unchanged. -/
def updatedSpeed (location : LocationData) (s : AppState) : ℤ :=
  match location.speed with
  | some v => jsRound (v * 3.6)
  | none => s.currentSpeed

/-- Function `handleLocationData(location)`: stores the current fix; updates the
displayed speed (`updatedSpeed`); when a previous fix and a session both
exist, adds `calculateDistance(prev, location) / 1000` to the running
total and mirrors it into the session; finally advances `lastLocation`.
`d` stands for the transcendental `calculateDistance` (in meters). -/
def handleLocationData (d : LocationData → LocationData → ℚ)
    (location : LocationData) (s : AppState) : AppState :=
  let speed1 : ℤ := updatedSpeed location s
  match s.lastLocation, s.currentSession with
  | some prev, some sess =>
    let distance := d prev location
    let td := s.totalDistance + distance / 1000
    { s with
      currentLocation := some location
      currentSpeed := speed1
      totalDistance := td
      currentSession := some { sess with totalDistance := td }
      lastLocation := some location }
  | _, _ =>
    { s with
      currentLocation := some location
      currentSpeed := speed1
      lastLocation := some location }

/-- The source mutates through `events.find(...)` the found element in place; the array keeps
its order and the other elements.  This helper updates the first element
satisfying `p` (the JS `find` returns the first match). -/
def updateFirst (p : PotholeEvent → Bool) (f : PotholeEvent → PotholeEvent) :
    List PotholeEvent → List PotholeEvent
  | [] => []
  | e :: es => if p e then f e :: es else e :: updateFirst p f es

/-- The in-place mutation performed on the found event by
`confirmPothole`: `event.userConfirmed = true; event.label = 'pothole_confirmed'`. -/
def setConfirmed (e : PotholeEvent) : PotholeEvent :=
  { e with userConfirmed := some true, label := .pothole_confirmed }

/-- The in-place mutation performed on the found event by
`markFalsePositive`: `event.userConfirmed = false; event.label = 'false_positive'`. -/
def setRejected (e : PotholeEvent) : PotholeEvent :=
  { e with userConfirmed := some false, label := .false_positive }

/-- Function `confirmPothole(eventId)`: no-op without a session; finds the event by
id and, when found, sets `userConfirmed = true`,
`label = 'pothole_confirmed'` and increments the component counter
(unconditionally — there is no check of the current confirmation state). -/
def confirmPothole (eventId : String) (s : AppState) : AppState :=
  match s.currentSession with
  | none => s
  | some sess =>
    match sess.events.find? (fun e => e.id == eventId) with
    | none => s
    | some _ =>
      { s with
        currentSession := some
          { sess with
            events := updateFirst (fun e => e.id == eventId) setConfirmed
              sess.events }
        confirmedPotholes := s.confirmedPotholes + 1 }

/-- Function `markFalsePositive(eventId)`: symmetric to `confirmPothole`, sets
`userConfirmed = false`, `label = 'false_positive'` (again with no check of
the current confirmation state). -/
def markFalsePositive (eventId : String) (s : AppState) : AppState :=
  match s.currentSession with
  | none => s
  | some sess =>
    match sess.events.find? (fun e => e.id == eventId) with
    | none => s
    | some _ =>
      { s with
        currentSession := some
          { sess with
            events := updateFirst (fun e => e.id == eventId) setRejected
              sess.events }
        falsePositives := s.falsePositives + 1 }

/-- The alternate revision of `handleAccelerometerData` (part_000 lines
3798–3848): identical except that it computes the severity first and only
appends the event when it is `medium` or `high`, logging low-severity
candidates to the console instead. -/
def handleAccelerometerDataFiltered (newId : String)
    (reading : AccelerometerReading) (s : AppState) : AppState :=
  if detectPothole reading then
    match s.currentLocation, s.currentSession with
    | some loc, some sess =>
      let severity := calculateSeverity reading
      if severity = .medium ∨ severity = .high then
        let events1 := sess.events ++ [mkEvent newId reading loc]
        { s with
          currentAccelerometer := some reading
          currentSession := some { sess with events := events1 }
          eventsCount := events1.length }
      else { s with currentAccelerometer := some reading }
    | _, _ => { s with currentAccelerometer := some reading }
  else { s with currentAccelerometer := some reading }

/-! ## Helpers for stating the claims -/

/-- The event list of the current session (empty when no session). -/
def sessionEvents (s : AppState) : List PotholeEvent :=
  match s.currentSession with
  | none => []
  | some sess => sess.events

/-- Find an event of the current session by id. -/
def findEvent (s : AppState) (eventId : String) : Option PotholeEvent :=
  (sessionEvents s).find? (fun e => e.id == eventId)

/-- The immutable core of each logged event: its stored reading and
severity. -/
def eventsCore (s : AppState) : List (AccelerometerReading × Severity) :=
  (sessionEvents s).map (fun e => (e.accelerometer, e.severity))

/-- The current session's `averageSpeed` field, when a session exists. -/
def sessionAvgSpeed (s : AppState) : Option ℚ :=
  s.currentSession.map (fun sess => sess.averageSpeed)

/-! ## Concrete fixtures used to evaluate the embedding -/

/-- A motion sample of magnitude 16: a candidate (16 > 15) of severity
`low` (16 ≤ 20). -/
def reading16 : AccelerometerReading := ⟨.num 0, .num 0, .num 16, 100⟩

/-- A motion sample of magnitude 30: a candidate of severity `high`. -/
def reading30 : AccelerometerReading := ⟨.num 0, .num 0, .num 30, 100⟩

def locA : LocationData := ⟨40, -73, some 10, 5, 50⟩

def locB : LocationData := ⟨41, -73, some 12, 5, 60⟩

/-- A freshly started session (no events). -/
def sessionEmpty : DrivingSession :=
  { id := "s1", startTime := 0, endTime := none, events := [],
    totalDistance := 0, averageSpeed := 0 }

/-- A pending high-severity event, as `handleAccelerometerData` creates it. -/
def ev1 : PotholeEvent := mkEvent "e1" reading30 locA

/-- An active session holding the single pending event `ev1`. -/
def sessionWithEv1 : DrivingSession :=
  { id := "s1", startTime := 0, endTime := none, events := [ev1],
    totalDistance := 0, averageSpeed := 0 }

/-- Idle state: permissions granted, route chosen, no session, no fixes. -/
def idleState : AppState :=
  { sessionStatus := .idle, sessionStartTime := 0, currentSession := none,
    currentAccelerometer := none, currentLocation := none, currentSpeed := 0,
    eventsCount := 0, confirmedPotholes := 0, falsePositives := 0,
    totalDistance := 0, lastLocation := none, permAccelerometer := true,
    permLocation := true, hasStartCoords := true, hasDestinationCoords := true }

/-- Active state with an empty session and a known current location. -/
def activeEmpty : AppState :=
  { idleState with
    sessionStatus := .active
    currentSession := some sessionEmpty
    currentLocation := some locA
    lastLocation := some locA }

/-- Active state with an empty session and no location fix received yet. -/
def activeNoLoc : AppState :=
  { idleState with
    sessionStatus := .active
    currentSession := some sessionEmpty }

/-- Active state whose session holds the pending event `ev1`. -/
def activeWithEv1 : AppState :=
  { idleState with
    sessionStatus := .active
    currentSession := some sessionWithEv1
    currentLocation := some locA
    lastLocation := some locA
    eventsCount := 1 }

/-- A concrete stand-in for the distance function: constantly 1000 m. -/
def constDistance : LocationData → LocationData → ℚ := fun _ _ => 1000

/-- State `activeEmpty` after 1 km of accumulated driving distance. -/
def activeWithDistance : AppState := { activeEmpty with totalDistance := 1 }

/-! ## Classifier lemmas -/

theorem sqrtGtQ_iff_lt_sqrt (q t : ℚ) (ht : 0 ≤ t) :
    JsNum.sqrtGtQ (.num q) t = true ↔ (t : ℝ) < Real.sqrt (q : ℝ) := by
  simp only [JsNum.sqrtGtQ, decide_eq_true_eq]
  constructor
  · rintro ⟨hq, hlt⟩
    have ht' : (0 : ℝ) ≤ (t : ℝ) := by exact_mod_cast ht
    rw [Real.lt_sqrt ht']
    have : (t : ℝ) * t < q := by exact_mod_cast hlt
    nlinarith
  · intro h
    have ht' : (0 : ℝ) ≤ (t : ℝ) := by exact_mod_cast ht
    have hpos : 0 < Real.sqrt (q : ℝ) := lt_of_le_of_lt ht' h
    have hqpos : (0 : ℝ) < (q : ℝ) := Real.sqrt_pos.mp hpos
    have hsq : (t : ℝ) ^ 2 < (q : ℝ) := (Real.lt_sqrt ht').mp h
    constructor
    · exact_mod_cast le_of_lt hqpos
    · have : (t : ℝ) * t < (q : ℝ) := by nlinarith
      exact_mod_cast this

/-- On all-numeric axes `magnitudeSq` is the rational sum of squares. -/
theorem magnitudeSq_num (qx qy qz : ℚ) (ts : ℚ) :
    magnitudeSq ⟨.num qx, .num qy, .num qz, ts⟩ =
      .num (qx * qx + qy * qy + qz * qz) := rfl

theorem arctan_nonneg_of_nonneg {x : ℝ} (hx : 0 ≤ x) : 0 ≤ Real.arctan x := by
  have := Real.arctan_strictMono.monotone hx
  rwa [Real.arctan_zero] at this

theorem atan2_nonneg {y x : ℝ} (hy : 0 ≤ y) (hx : 0 ≤ x) : 0 ≤ atan2 y x := by
  unfold atan2
  rcases lt_or_eq_of_le hx with hx' | hx'
  · rw [if_pos hx']
    exact arctan_nonneg_of_nonneg (div_nonneg hy (le_of_lt hx'))
  · subst hx'
    rw [if_neg (lt_irrefl 0), if_neg (lt_irrefl 0)]
    rcases lt_or_eq_of_le hy with hy' | hy'
    · rw [if_pos hy']
      positivity
    · subst hy'
      rw [if_neg (lt_irrefl 0), if_neg (lt_irrefl 0)]

/-- The haversine distance of the source is nonnegative: this discharges,
for the intended instantiation, the nonnegativity hypothesis the
distance-accumulation claims place on the parametric distance function. -/
theorem calculateDistance_nonneg (lat1 lon1 lat2 lon2 : ℝ) :
    0 ≤ calculateDistance lat1 lon1 lat2 lon2 := by
  unfold calculateDistance
  dsimp only
  exact mul_nonneg (by norm_num)
    (mul_nonneg (by norm_num)
      (atan2_nonneg (Real.sqrt_nonneg _) (Real.sqrt_nonneg _)))

theorem JsNum.nan_add (b : JsNum) : JsNum.add .nan b = .nan := by
  cases b <;> rfl

theorem JsNum.add_nan (a : JsNum) : JsNum.add a .nan = .nan := by
  cases a <;> rfl

theorem JsNum.nan_mul (b : JsNum) : JsNum.mul .nan b = .nan := by
  cases b <;> rfl

theorem JsNum.mul_nan (a : JsNum) : JsNum.mul a .nan = .nan := by
  cases a <;> rfl

/-- An invalid (NaN) axis propagates to the whole squared magnitude. -/
theorem magnitudeSq_eq_nan_of_nan (r : AccelerometerReading)
    (h : r.x = .nan ∨ r.y = .nan ∨ r.z = .nan) : magnitudeSq r = .nan := by
  obtain ⟨x, y, z, ts⟩ := r
  unfold magnitudeSq
  rcases h with h | h | h <;> simp only at h <;> subst h
  · rw [JsNum.nan_mul, JsNum.nan_add, JsNum.nan_add]
  · rw [JsNum.nan_mul, JsNum.add_nan, JsNum.nan_add]
  · rw [JsNum.nan_mul, JsNum.add_nan]

theorem calculateSeverity_eq_high_iff (r : AccelerometerReading) :
    calculateSeverity r = .high ↔ (magnitudeSq r).sqrtGtQ 25 = true := by
  unfold calculateSeverity
  by_cases h25 : (magnitudeSq r).sqrtGtQ 25 = true
  · simp [h25]
  · by_cases h20 : (magnitudeSq r).sqrtGtQ 20 = true <;> simp [h25, h20]

theorem calculateSeverity_eq_medium_iff (r : AccelerometerReading) :
    calculateSeverity r = .medium ↔
      ((magnitudeSq r).sqrtGtQ 25 = false ∧ (magnitudeSq r).sqrtGtQ 20 = true) := by
  unfold calculateSeverity
  by_cases h25 : (magnitudeSq r).sqrtGtQ 25 = true
  · simp [h25]
  · by_cases h20 : (magnitudeSq r).sqrtGtQ 20 = true <;>
      simp_all [Bool.not_eq_true]

theorem calculateSeverity_eq_low_iff (r : AccelerometerReading) :
    calculateSeverity r = .low ↔
      ((magnitudeSq r).sqrtGtQ 25 = false ∧ (magnitudeSq r).sqrtGtQ 20 = false) := by
  unfold calculateSeverity
  by_cases h25 : (magnitudeSq r).sqrtGtQ 25 = true
  · simp [h25]
  · by_cases h20 : (magnitudeSq r).sqrtGtQ 20 = true <;>
      simp_all [Bool.not_eq_true]

/-- Cast of the sum of squares of the axes to `ℝ`. -/
theorem sumsq_cast (qx qy qz : ℚ) :
    ((qx * qx + qy * qy + qz * qz : ℚ) : ℝ) =
      (qx : ℝ) * qx + (qy : ℝ) * qy + (qz : ℝ) * qz := by push_cast; ring

/-! ## Equation lemmas for the session operations -/

theorem handleAccelerometerData_not_candidate (newId : String)
    (r : AccelerometerReading) (s : AppState) (hd : detectPothole r = false) :
    handleAccelerometerData newId r s = { s with currentAccelerometer := some r } := by
  unfold handleAccelerometerData
  rw [hd]
  rfl

theorem handleAccelerometerData_no_location (newId : String)
    (r : AccelerometerReading) (s : AppState) (hloc : s.currentLocation = none) :
    handleAccelerometerData newId r s = { s with currentAccelerometer := some r } := by
  unfold handleAccelerometerData
  rw [hloc]
  cases hd : detectPothole r
  · rfl
  · cases s.currentSession <;> rfl

theorem handleAccelerometerData_no_session (newId : String)
    (r : AccelerometerReading) (s : AppState) (hsess : s.currentSession = none) :
    handleAccelerometerData newId r s = { s with currentAccelerometer := some r } := by
  unfold handleAccelerometerData
  rw [hsess]
  cases hd : detectPothole r
  · rfl
  · cases s.currentLocation <;> rfl

theorem handleAccelerometerData_logs (newId : String)
    (r : AccelerometerReading) (loc : LocationData) (sess : DrivingSession)
    (s : AppState) (hd : detectPothole r = true)
    (hloc : s.currentLocation = some loc) (hsess : s.currentSession = some sess) :
    handleAccelerometerData newId r s =
      { s with
        currentAccelerometer := some r
        currentSession := some
          { sess with events := sess.events ++ [mkEvent newId r loc] }
        eventsCount := (sess.events ++ [mkEvent newId r loc]).length } := by
  unfold handleAccelerometerData
  rw [hd, hloc, hsess]
  rfl

theorem confirmPothole_no_session (eventId : String) (s : AppState)
    (h : s.currentSession = none) : confirmPothole eventId s = s := by
  unfold confirmPothole
  rw [h]

theorem confirmPothole_not_found (eventId : String) (s : AppState)
    (sess : DrivingSession) (hsess : s.currentSession = some sess)
    (hfind : sess.events.find? (fun e => e.id == eventId) = none) :
    confirmPothole eventId s = s := by
  unfold confirmPothole
  rw [hsess]
  dsimp only
  rw [hfind]

theorem confirmPothole_found (eventId : String) (s : AppState)
    (sess : DrivingSession) (e : PotholeEvent)
    (hsess : s.currentSession = some sess)
    (hfind : sess.events.find? (fun x => x.id == eventId) = some e) :
    confirmPothole eventId s =
      { s with
        currentSession := some
          { sess with
            events := updateFirst (fun x => x.id == eventId) setConfirmed
              sess.events }
        confirmedPotholes := s.confirmedPotholes + 1 } := by
  unfold confirmPothole
  rw [hsess]
  dsimp only
  rw [hfind]

theorem markFalsePositive_no_session (eventId : String) (s : AppState)
    (h : s.currentSession = none) : markFalsePositive eventId s = s := by
  unfold markFalsePositive
  rw [h]

theorem markFalsePositive_not_found (eventId : String) (s : AppState)
    (sess : DrivingSession) (hsess : s.currentSession = some sess)
    (hfind : sess.events.find? (fun e => e.id == eventId) = none) :
    markFalsePositive eventId s = s := by
  unfold markFalsePositive
  rw [hsess]
  dsimp only
  rw [hfind]

theorem markFalsePositive_found (eventId : String) (s : AppState)
    (sess : DrivingSession) (e : PotholeEvent)
    (hsess : s.currentSession = some sess)
    (hfind : sess.events.find? (fun x => x.id == eventId) = some e) :
    markFalsePositive eventId s =
      { s with
        currentSession := some
          { sess with
            events := updateFirst (fun x => x.id == eventId) setRejected
              sess.events }
        falsePositives := s.falsePositives + 1 } := by
  unfold markFalsePositive
  rw [hsess]
  dsimp only
  rw [hfind]

theorem handleLocationData_no_accum (d : LocationData → LocationData → ℚ)
    (loc : LocationData) (s : AppState)
    (h : s.lastLocation = none ∨ s.currentSession = none) :
    handleLocationData d loc s =
      { s with
        currentLocation := some loc
        currentSpeed := updatedSpeed loc s
        lastLocation := some loc } := by
  unfold handleLocationData
  rcases h with h | h
  · rw [h]
  · rw [h]
    cases s.lastLocation <;> rfl

theorem handleLocationData_accum (d : LocationData → LocationData → ℚ)
    (loc prev : LocationData) (sess : DrivingSession) (s : AppState)
    (hlast : s.lastLocation = some prev) (hsess : s.currentSession = some sess) :
    handleLocationData d loc s =
      { s with
        currentLocation := some loc
        currentSpeed := updatedSpeed loc s
        totalDistance := s.totalDistance + d prev loc / 1000
        currentSession := some
          { sess with totalDistance := s.totalDistance + d prev loc / 1000 }
        lastLocation := some loc } := by
  unfold handleLocationData
  rw [hlast, hsess]

theorem startSession_go (newId : String) (now : ℚ) (s : AppState)
    (h1 : s.permAccelerometer = true) (h2 : s.permLocation = true)
    (h3 : s.hasStartCoords = true) (h4 : s.hasDestinationCoords = true) :
    startSession newId now s =
      { s with
        sessionStatus := .active
        sessionStartTime := now
        currentSession := some
          { id := newId, startTime := now, endTime := none, events := [],
            totalDistance := 0, averageSpeed := 0 }
        eventsCount := 0
        confirmedPotholes := 0
        falsePositives := 0
        totalDistance := 0 } := by
  unfold startSession
  rw [h1, h2, h3, h4]
  rfl

theorem stopSession_no_session (now : ℚ) (s : AppState)
    (h : s.currentSession = none) : stopSession now s = (s, none) := by
  unfold stopSession
  rw [h]

theorem stopSession_go (now : ℚ) (s : AppState) (sess : DrivingSession)
    (h : s.currentSession = some sess) :
    stopSession now s =
      ({ s with
          sessionStatus := .idle
          currentSession := none
          currentAccelerometer := none
          currentLocation := none
          currentSpeed := 0 },
        some
          { sess with
            endTime := some now
            averageSpeed :=
              if 0 < (now - sess.startTime) / 1000 / 60
              then s.totalDistance / ((now - sess.startTime) / 1000 / 60) * 60
              else 0
            totalDistance := s.totalDistance }) := by
  unfold stopSession
  rw [h]

/-! ## Claims about the classifier -/

/-- C7: `detectPothole` (the spec's `isCandidate`) returns `true` if and
only if the magnitude `√(x² + y² + z²)` exceeds 15; in particular it is
`false` for every sample whose magnitude is at most 15. -/
theorem detectPothole_iff_magnitude_gt_15 (qx qy qz ts : ℚ) :
    detectPothole ⟨.num qx, .num qy, .num qz, ts⟩ = true ↔
      15 < Real.sqrt ((qx : ℝ) * qx + (qy : ℝ) * qy + (qz : ℝ) * qz) := by
  unfold detectPothole POTHOLE_THRESHOLD
  rw [magnitudeSq_num, sqrtGtQ_iff_lt_sqrt _ _ (by norm_num), sumsq_cast]
  norm_num

/-- C6: `calculateSeverity` (the spec's `classifySeverity`) returns `high`
exactly when the magnitude exceeds 25, `medium` exactly when it is in
(20, 25], and `low` otherwise; the boundaries are exclusive on the lower
bound, so magnitude exactly 20 is `low` and exactly 25 is `medium`. -/
theorem calculateSeverity_tiers (qx qy qz ts : ℚ) :
    (calculateSeverity ⟨.num qx, .num qy, .num qz, ts⟩ = .high ↔
      25 < Real.sqrt ((qx : ℝ) * qx + (qy : ℝ) * qy + (qz : ℝ) * qz)) ∧
    (calculateSeverity ⟨.num qx, .num qy, .num qz, ts⟩ = .medium ↔
      (20 < Real.sqrt ((qx : ℝ) * qx + (qy : ℝ) * qy + (qz : ℝ) * qz) ∧
        Real.sqrt ((qx : ℝ) * qx + (qy : ℝ) * qy + (qz : ℝ) * qz) ≤ 25)) ∧
    (calculateSeverity ⟨.num qx, .num qy, .num qz, ts⟩ = .low ↔
      Real.sqrt ((qx : ℝ) * qx + (qy : ℝ) * qy + (qz : ℝ) * qz) ≤ 20) ∧
    calculateSeverity ⟨.num 0, .num 0, .num 20, 0⟩ = .low ∧
    calculateSeverity ⟨.num 0, .num 0, .num 25, 0⟩ = .medium := by
  have h25 : (magnitudeSq ⟨.num qx, .num qy, .num qz, ts⟩).sqrtGtQ 25 = true ↔
      25 < Real.sqrt ((qx : ℝ) * qx + (qy : ℝ) * qy + (qz : ℝ) * qz) := by
    rw [magnitudeSq_num, sqrtGtQ_iff_lt_sqrt _ _ (by norm_num), sumsq_cast]
    norm_num
  have h20 : (magnitudeSq ⟨.num qx, .num qy, .num qz, ts⟩).sqrtGtQ 20 = true ↔
      20 < Real.sqrt ((qx : ℝ) * qx + (qy : ℝ) * qy + (qz : ℝ) * qz) := by
    rw [magnitudeSq_num, sqrtGtQ_iff_lt_sqrt _ _ (by norm_num), sumsq_cast]
    norm_num
  refine ⟨?_, ?_, ?_,
    by norm_num [calculateSeverity, magnitudeSq, JsNum.mul, JsNum.add, JsNum.sqrtGtQ],
    by norm_num [calculateSeverity, magnitudeSq, JsNum.mul, JsNum.add, JsNum.sqrtGtQ]⟩
  · rw [calculateSeverity_eq_high_iff]
    exact h25
  · rw [calculateSeverity_eq_medium_iff]
    rw [Bool.eq_false_iff, Ne, h25, h20, not_lt]
    exact ⟨fun h => ⟨h.2, h.1⟩, fun h => ⟨h.2, h.1⟩⟩
  · rw [calculateSeverity_eq_low_iff]
    rw [Bool.eq_false_iff, Bool.eq_false_iff, Ne, Ne, h25, h20, not_lt, not_lt]
    exact ⟨fun h => h.2, fun h => ⟨le_trans h (by norm_num), h⟩⟩

/-- C9: a motion sample with an invalid (NaN) axis is handled like a sample
of magnitude 0: it is not a candidate, its severity is `low`, and both
classifier outputs coincide with those on the all-zero sample — nothing is
propagated and no fault is raised (both functions are total). -/
theorem nan_reading_treated_as_zero (r : AccelerometerReading)
    (h : r.x = .nan ∨ r.y = .nan ∨ r.z = .nan) :
    detectPothole r = false ∧ calculateSeverity r = .low ∧
    detectPothole r = detectPothole ⟨.num 0, .num 0, .num 0, r.timestamp⟩ ∧
    calculateSeverity r =
      calculateSeverity ⟨.num 0, .num 0, .num 0, r.timestamp⟩ := by
  have hm := magnitudeSq_eq_nan_of_nan r h
  have hd : detectPothole r = false := by
    unfold detectPothole
    rw [hm]
    rfl
  have hs : calculateSeverity r = .low := by
    rw [calculateSeverity_eq_low_iff, hm]
    exact ⟨rfl, rfl⟩
  have hd0 : detectPothole ⟨.num 0, .num 0, .num 0, r.timestamp⟩ = false := by
    norm_num [detectPothole, magnitudeSq, JsNum.mul, JsNum.add, JsNum.sqrtGtQ,
      POTHOLE_THRESHOLD]
  have hs0 : calculateSeverity ⟨.num 0, .num 0, .num 0, r.timestamp⟩ = .low := by
    norm_num [calculateSeverity, magnitudeSq, JsNum.mul, JsNum.add, JsNum.sqrtGtQ]
  exact ⟨hd, hs, by rw [hd, hd0], by rw [hs, hs0]⟩

/-- Witness for C9 at the concrete sample `(NaN, 3, 4)`. -/
theorem nan_reading_treated_as_zero_witness :
    detectPothole ⟨.nan, .num 3, .num 4, 0⟩ = false ∧
    calculateSeverity ⟨.nan, .num 3, .num 4, 0⟩ = Severity.low :=
  ⟨(nan_reading_treated_as_zero ⟨.nan, .num 3, .num 4, 0⟩ (Or.inl rfl)).1,
    (nan_reading_treated_as_zero ⟨.nan, .num 3, .num 4, 0⟩ (Or.inl rfl)).2.1⟩

/-! ## Claims about the accelerometer handler -/

/-- C1 counterexample: the motion sample `reading16` is a candidate
(magnitude 16 > 15) of severity `low`, yet `handleAccelerometerData`
appends it to the active session's event list: the source has no severity
filter, so a low-severity candidate with a known location does produce a
logged event. -/
theorem low_severity_candidate_logged_counterexample :
    detectPothole reading16 = true ∧
    calculateSeverity reading16 = Severity.low ∧
    sessionEvents activeEmpty = [] ∧
    (sessionEvents (handleAccelerometerData "e2" reading16 activeEmpty)).length = 1 ∧
    (sessionEvents (handleAccelerometerData "e2" reading16 activeEmpty)).map
      (fun e => e.severity) = [Severity.low] := by
  refine ⟨?_, ?_, rfl, ?_, ?_⟩ <;>
    norm_num [detectPothole, calculateSeverity, reading16, magnitudeSq,
      JsNum.mul, JsNum.add, JsNum.sqrtGtQ, POTHOLE_THRESHOLD,
      handleAccelerometerData, activeEmpty, idleState, sessionEmpty,
      sessionEvents, mkEvent]

/-- C1 amended: while a session is active, every candidate motion sample
(magnitude > 15) with a known current location produces a logged event,
regardless of its severity — the logged event carries
`calculateSeverity` of the reading, but `low` severity is not filtered
out.  (The severity filter described by the spec exists only in an
alternate revision of the component, `handleAccelerometerDataFiltered`.) -/
theorem candidate_with_location_always_logged (newId : String)
    (r : AccelerometerReading) (loc : LocationData) (sess : DrivingSession)
    (s : AppState) (hr : detectPothole r = true)
    (hloc : s.currentLocation = some loc) (hsess : s.currentSession = some sess) :
    sessionEvents (handleAccelerometerData newId r s) =
      sess.events ++ [mkEvent newId r loc] ∧
    (mkEvent newId r loc).severity = calculateSeverity r := by
  rw [handleAccelerometerData_logs newId r loc sess s hr hloc hsess]
  exact ⟨rfl, rfl⟩

/-- Witness for the amended C1 at the concrete low-severity candidate. -/
theorem candidate_with_location_always_logged_witness :
    sessionEvents (handleAccelerometerData "e2" reading16 activeEmpty) =
      sessionEmpty.events ++ [mkEvent "e2" reading16 locA] ∧
    (mkEvent "e2" reading16 locA).severity = calculateSeverity reading16 :=
  candidate_with_location_always_logged "e2" reading16 locA sessionEmpty activeEmpty
    (by norm_num [detectPothole, reading16, magnitudeSq, JsNum.mul, JsNum.add,
      JsNum.sqrtGtQ, POTHOLE_THRESHOLD])
    rfl rfl

/-- C8: while a session is active, a candidate motion sample that arrives
before any location fix has been received is discarded: the session (and
in particular its event list) is unchanged. -/
theorem candidate_without_location_discarded (newId : String)
    (r : AccelerometerReading) (s : AppState)
    (h : s.currentLocation = none) :
    (handleAccelerometerData newId r s).currentSession = s.currentSession ∧
    sessionEvents (handleAccelerometerData newId r s) = sessionEvents s := by
  rw [handleAccelerometerData_no_location newId r s h]
  exact ⟨rfl, rfl⟩

/-- Witness for C8: a magnitude-30 candidate delivered to an active session
with no location fix leaves the session untouched. -/
theorem candidate_without_location_discarded_witness :
    (handleAccelerometerData "e9" reading30 activeNoLoc).currentSession =
      activeNoLoc.currentSession ∧
    sessionEvents (handleAccelerometerData "e9" reading30 activeNoLoc) =
      sessionEvents activeNoLoc :=
  candidate_without_location_discarded "e9" reading30 activeNoLoc rfl

/-! ## Helper lemmas about `updateFirst` -/

theorem updateFirst_cons_pos (p : PotholeEvent → Bool)
    (f : PotholeEvent → PotholeEvent) (e : PotholeEvent)
    (es : List PotholeEvent) (hpe : p e = true) :
    updateFirst p f (e :: es) = f e :: es := by
  simp only [updateFirst]
  rw [if_pos hpe]

theorem updateFirst_cons_neg (p : PotholeEvent → Bool)
    (f : PotholeEvent → PotholeEvent) (e : PotholeEvent)
    (es : List PotholeEvent) (hpe : p e = false) :
    updateFirst p f (e :: es) = e :: updateFirst p f es := by
  simp only [updateFirst]
  rw [if_neg (by simp [hpe])]

theorem updateFirst_map (p : PotholeEvent → Bool)
    (f : PotholeEvent → PotholeEvent) {β : Type} (g : PotholeEvent → β)
    (hg : ∀ e, g (f e) = g e) (l : List PotholeEvent) :
    (updateFirst p f l).map g = l.map g := by
  induction l with
  | nil => rfl
  | cons e es ih =>
    cases hpe : p e
    · rw [updateFirst_cons_neg p f e es hpe, List.map_cons, List.map_cons, ih]
    · rw [updateFirst_cons_pos p f e es hpe, List.map_cons, List.map_cons, hg]

theorem find?_updateFirst (p : PotholeEvent → Bool)
    (f : PotholeEvent → PotholeEvent) (hp : ∀ e, p (f e) = p e)
    (l : List PotholeEvent) :
    (updateFirst p f l).find? p = (l.find? p).map f := by
  induction l with
  | nil => rfl
  | cons e es ih =>
    cases hpe : p e
    · rw [updateFirst_cons_neg p f e es hpe,
        List.find?_cons_of_neg _ (by simp [hpe]),
        List.find?_cons_of_neg _ (by simp [hpe]), ih]
    · rw [updateFirst_cons_pos p f e es hpe,
        List.find?_cons_of_pos _ ((hp e).trans hpe),
        List.find?_cons_of_pos _ hpe]
      rfl

theorem updateFirst_idem (p : PotholeEvent → Bool)
    (f : PotholeEvent → PotholeEvent) (hp : ∀ e, p (f e) = p e)
    (hf : ∀ e, f (f e) = f e) (l : List PotholeEvent) :
    updateFirst p f (updateFirst p f l) = updateFirst p f l := by
  induction l with
  | nil => rfl
  | cons e es ih =>
    cases hpe : p e
    · rw [updateFirst_cons_neg p f e es hpe,
        updateFirst_cons_neg p f e _ hpe, ih]
    · rw [updateFirst_cons_pos p f e es hpe,
        updateFirst_cons_pos p f (f e) es ((hp e).trans hpe), hf]

theorem setConfirmed_id (e : PotholeEvent) : (setConfirmed e).id = e.id := rfl

theorem setRejected_id (e : PotholeEvent) : (setRejected e).id = e.id := rfl

/-! ## Claims about the event invariant -/

/-- C10: every event `handleAccelerometerData` appends is created from a
candidate reading (`detectPothole` true), stores that reading, has
`severity = calculateSeverity` of the stored reading, and starts pending
(`userConfirmed = null`, `label = 'pothole_detected'`); and none of the
later operations (`confirmPothole`, `markFalsePositive`,
`handleLocationData`) changes any event's stored reading or severity. -/
theorem logged_event_invariant (newId : String) (r : AccelerometerReading)
    (eventId : String) (d : LocationData → LocationData → ℚ)
    (loc : LocationData) (s : AppState) :
    (sessionEvents (handleAccelerometerData newId r s) = sessionEvents s ∨
      (detectPothole r = true ∧ ∃ l, s.currentLocation = some l ∧
        sessionEvents (handleAccelerometerData newId r s) =
          sessionEvents s ++ [mkEvent newId r l] ∧
        (mkEvent newId r l).accelerometer = r ∧
        detectPothole (mkEvent newId r l).accelerometer = true ∧
        (mkEvent newId r l).severity = calculateSeverity r ∧
        (mkEvent newId r l).userConfirmed = none ∧
        (mkEvent newId r l).label = EventLabel.pothole_detected)) ∧
    eventsCore (confirmPothole eventId s) = eventsCore s ∧
    eventsCore (markFalsePositive eventId s) = eventsCore s ∧
    eventsCore (handleLocationData d loc s) = eventsCore s := by
  refine ⟨?_, ?_, ?_, ?_⟩
  · cases hd : detectPothole r
    · left
      rw [handleAccelerometerData_not_candidate newId r s hd]
      rfl
    · cases hloc : s.currentLocation with
      | none =>
        left
        rw [handleAccelerometerData_no_location newId r s hloc]
        rfl
      | some l =>
        cases hsess : s.currentSession with
        | none =>
          left
          rw [handleAccelerometerData_no_session newId r s hsess]
          rfl
        | some sess =>
          right
          refine ⟨rfl, l, rfl, ?_, rfl, hd, rfl, rfl, rfl⟩
          rw [handleAccelerometerData_logs newId r l sess s hd hloc hsess]
          unfold sessionEvents
          rw [hsess]
  · cases hsess : s.currentSession with
    | none => rw [confirmPothole_no_session eventId s hsess]
    | some sess =>
      cases hfind : sess.events.find? (fun e => e.id == eventId) with
      | none => rw [confirmPothole_not_found eventId s sess hsess hfind]
      | some e =>
        rw [confirmPothole_found eventId s sess e hsess hfind]
        unfold eventsCore sessionEvents
        rw [hsess]
        exact updateFirst_map (fun x => x.id == eventId) setConfirmed
          (fun x => (x.accelerometer, x.severity)) (fun x => rfl) sess.events
  · cases hsess : s.currentSession with
    | none => rw [markFalsePositive_no_session eventId s hsess]
    | some sess =>
      cases hfind : sess.events.find? (fun e => e.id == eventId) with
      | none => rw [markFalsePositive_not_found eventId s sess hsess hfind]
      | some e =>
        rw [markFalsePositive_found eventId s sess e hsess hfind]
        unfold eventsCore sessionEvents
        rw [hsess]
        exact updateFirst_map (fun x => x.id == eventId) setRejected
          (fun x => (x.accelerometer, x.severity)) (fun x => rfl) sess.events
  · cases hlast : s.lastLocation with
    | none =>
      rw [handleLocationData_no_accum d loc s (Or.inl hlast)]
      rfl
    | some prev =>
      cases hsess : s.currentSession with
      | none =>
        rw [handleLocationData_no_accum d loc s (Or.inr hsess)]
        rfl
      | some sess =>
        rw [handleLocationData_accum d loc prev sess s hlast hsess]
        unfold eventsCore sessionEvents
        rw [hsess]

/-! ## Claims about confirmation -/

/-- Helper for C2: confirming twice leaves the same session as confirming
once (the event fields are overwritten with the same values both times). -/
theorem confirm_confirm_session (s : AppState) (eventId : String) :
    (confirmPothole eventId (confirmPothole eventId s)).currentSession =
      (confirmPothole eventId s).currentSession := by
  cases hsess : s.currentSession with
  | none =>
    have h0 := confirmPothole_no_session eventId s hsess
    rw [h0, h0]
  | some sess =>
    cases hfind : sess.events.find? (fun x => x.id == eventId) with
    | none =>
      have h0 := confirmPothole_not_found eventId s sess hsess hfind
      rw [h0, h0]
    | some e =>
      rw [confirmPothole_found eventId s sess e hsess hfind]
      have hfind1 : (updateFirst (fun x => x.id == eventId) setConfirmed
          sess.events).find? (fun x => x.id == eventId) = some (setConfirmed e) := by
        rw [find?_updateFirst (fun x => x.id == eventId) setConfirmed
          (fun x => rfl) sess.events, hfind]
        rfl
      rw [confirmPothole_found eventId _ _ (setConfirmed e) rfl hfind1]
      rw [updateFirst_idem (fun x => x.id == eventId) setConfirmed
        (fun x => rfl) (fun x => rfl) sess.events]

/-- C2 counterexample: starting from an active session holding the pending
event `e1`, `confirmPothole "e1"` marks it confirmed, but a subsequent
`markFalsePositive "e1"` overwrites the resolution to rejected — the
`confirmed` state is not terminal. -/
theorem reject_after_confirm_counterexample :
    (findEvent (confirmPothole "e1" activeWithEv1) "e1").map
      (fun e => e.userConfirmed) = some (some true) ∧
    (findEvent (markFalsePositive "e1" (confirmPothole "e1" activeWithEv1)) "e1").map
      (fun e => e.userConfirmed) = some (some false) := by
  decide

/-- C2 amended: `confirmPothole` and `markFalsePositive` overwrite the
confirmation state unconditionally.  Confirming twice yields the same
session as confirming once (idempotent on the session, though the
component-level confirmed counter double-counts), but rejecting after
confirming moves the event to the rejected state: resolutions are
last-write-wins, not terminal. -/
theorem resolution_last_write_wins (s : AppState) (eventId : String)
    (h : (findEvent s eventId).isSome = true) :
    (confirmPothole eventId (confirmPothole eventId s)).currentSession =
      (confirmPothole eventId s).currentSession ∧
    (findEvent (markFalsePositive eventId (confirmPothole eventId s)) eventId).map
        (fun e => (e.userConfirmed, e.label)) =
      some (some false, EventLabel.false_positive) := by
  refine ⟨confirm_confirm_session s eventId, ?_⟩
  cases hsess : s.currentSession with
  | none =>
    exfalso
    unfold findEvent sessionEvents at h
    rw [hsess] at h
    simp at h
  | some sess =>
    cases hfind : sess.events.find? (fun x => x.id == eventId) with
    | none =>
      exfalso
      unfold findEvent sessionEvents at h
      rw [hsess] at h
      simp only [hfind] at h
      simp at h
    | some e =>
      rw [confirmPothole_found eventId s sess e hsess hfind]
      have hfind1 : (updateFirst (fun x => x.id == eventId) setConfirmed
          sess.events).find? (fun x => x.id == eventId) = some (setConfirmed e) := by
        rw [find?_updateFirst (fun x => x.id == eventId) setConfirmed
          (fun x => rfl) sess.events, hfind]
        rfl
      rw [markFalsePositive_found eventId _ _ (setConfirmed e) rfl hfind1]
      unfold findEvent sessionEvents
      dsimp only
      rw [find?_updateFirst (fun x => x.id == eventId) setRejected
        (fun x => rfl) _, hfind1]
      rfl

/-- Witness for the amended C2 at the active session holding `e1`. -/
theorem resolution_last_write_wins_witness :
    (confirmPothole "e1" (confirmPothole "e1" activeWithEv1)).currentSession =
      (confirmPothole "e1" activeWithEv1).currentSession ∧
    (findEvent (markFalsePositive "e1" (confirmPothole "e1" activeWithEv1)) "e1").map
        (fun e => (e.userConfirmed, e.label)) =
      some (some false, EventLabel.false_positive) :=
  resolution_last_write_wins activeWithEv1 "e1" (by decide)

/-! ## Claims about the session lifecycle -/

/-- C3 counterexample: with permissions granted and a route chosen,
`startSession` called on a state whose session is active (and holds one
event) silently replaces it with a fresh session — there is no
already-active guard. -/
theorem start_while_active_counterexample :
    activeWithEv1.sessionStatus = SessionStatus.active ∧
    (sessionEvents activeWithEv1).length = 1 ∧
    sessionEvents (startSession "s2" 5000 activeWithEv1) = [] ∧
    (startSession "s2" 5000 activeWithEv1).sessionStartTime = 5000 := by
  refine ⟨rfl, rfl, ?_, ?_⟩ <;>
    (rw [startSession_go "s2" 5000 activeWithEv1 rfl rfl rfl rfl]; try rfl)

/-- C3 amended: `startSession`'s only guards are the two permissions and
the two route coordinates; when they hold it unconditionally installs a
fresh session, replacing any active one (start while active is not
rejected).  `stopSession` with no active session is a no-op that mutates
nothing and exports nothing; neither operation can raise (both are total
functions). -/
theorem start_unguarded_stop_idle_noop (newId : String) (now : ℚ)
    (s : AppState) (h1 : s.permAccelerometer = true)
    (h2 : s.permLocation = true) (h3 : s.hasStartCoords = true)
    (h4 : s.hasDestinationCoords = true) (s2 : AppState)
    (h5 : s2.currentSession = none) :
    (startSession newId now s).currentSession = some
      { id := newId, startTime := now, endTime := none, events := [],
        totalDistance := 0, averageSpeed := 0 } ∧
    (startSession newId now s).sessionStatus = SessionStatus.active ∧
    stopSession now s2 = (s2, none) := by
  rw [startSession_go newId now s h1 h2 h3 h4, stopSession_no_session now s2 h5]
  exact ⟨rfl, rfl, rfl⟩

/-- Witness for the amended C3: the replacement happens on an active state
with one logged event, and stopping from idle is a no-op. -/
theorem start_unguarded_stop_idle_noop_witness :
    (startSession "s2" 5000 activeWithEv1).currentSession = some
      { id := "s2", startTime := 5000, endTime := none, events := [],
        totalDistance := 0, averageSpeed := 0 } ∧
    (startSession "s2" 5000 activeWithEv1).sessionStatus = SessionStatus.active ∧
    stopSession 5000 idleState = (idleState, none) :=
  start_unguarded_stop_idle_noop "s2" 5000 activeWithEv1 rfl rfl rfl rfl
    idleState rfl

/-! ## Claims about distance accumulation -/

/-- C4 counterexample: `lastLocation` is never reset at session
boundaries, so a location fix received before the session started does
contribute distance.  Concretely: a fix arrives while idle (no session, so
no distance is added), a session is then started (`totalDistance = 0`),
and the very first in-session fix already adds the distance from the
pre-session fix: `totalDistance` changes although the session has not seen
two location samples. -/
theorem presession_fix_contributes_distance_counterexample :
    (handleLocationData constDistance locA idleState).totalDistance = 0 ∧
    (handleLocationData constDistance locA idleState).currentSession = none ∧
    (startSession "s1" 0 (handleLocationData constDistance locA idleState)).totalDistance
      = 0 ∧
    (handleLocationData constDistance locB
        (startSession "s1" 0 (handleLocationData constDistance locA idleState))).totalDistance
      = 1 ∧
    ((handleLocationData constDistance locB
        (startSession "s1" 0 (handleLocationData constDistance locA idleState))).currentSession.map
      (fun sess => sess.totalDistance)) = some 1 := by
  have e1 : handleLocationData constDistance locA idleState =
      { idleState with
        currentLocation := some locA
        currentSpeed := updatedSpeed locA idleState
        lastLocation := some locA } :=
    handleLocationData_no_accum constDistance locA idleState (Or.inl rfl)
  rw [e1]
  rw [startSession_go "s1" 0 _ rfl rfl rfl rfl]
  rw [handleLocationData_accum constDistance locB locA
    { id := "s1", startTime := 0, endTime := none, events := [],
      totalDistance := 0, averageSpeed := 0 } _ rfl rfl]
  refine ⟨rfl, rfl, rfl, ?_, ?_⟩ <;> norm_num [constDistance]

/-- C4 amended: under location samples, `totalDistance` is non-decreasing
(given a nonnegative distance function — the source's haversine
`calculateDistance` is nonnegative, `calculateDistance_nonneg`), and it
changes only when a previous fix exists and a session is active; but the
previous-fix pointer survives session boundaries, so the previous fix may
predate the session. -/
theorem totalDistance_monotone_gated (d : LocationData → LocationData → ℚ)
    (loc : LocationData) (s : AppState) :
    ((∀ p q, 0 ≤ d p q) →
      s.totalDistance ≤ (handleLocationData d loc s).totalDistance) ∧
    (s.lastLocation = none ∨ s.currentSession = none →
      (handleLocationData d loc s).totalDistance = s.totalDistance) := by
  constructor
  · intro hd
    cases hlast : s.lastLocation with
    | none =>
      rw [handleLocationData_no_accum d loc s (Or.inl hlast)]
    | some prev =>
      cases hsess : s.currentSession with
      | none =>
        rw [handleLocationData_no_accum d loc s (Or.inr hsess)]
      | some sess =>
        rw [handleLocationData_accum d loc prev sess s hlast hsess]
        dsimp only
        have hpq := hd prev loc
        have hdiv : 0 ≤ d prev loc / 1000 :=
          div_nonneg hpq (by norm_num)
        linarith
  · intro h
    rw [handleLocationData_no_accum d loc s h]

/-- Witness for the amended C4 at the idle state and the constant
distance function. -/
theorem totalDistance_monotone_gated_witness :
    idleState.totalDistance ≤
      (handleLocationData constDistance locA idleState).totalDistance ∧
    (handleLocationData constDistance locA idleState).totalDistance =
      idleState.totalDistance :=
  ⟨(totalDistance_monotone_gated constDistance locA idleState).1
      (fun p q => by norm_num [constDistance]),
    (totalDistance_monotone_gated constDistance locA idleState).2 (Or.inl rfl)⟩

/-! ## Claims about session finalization -/

theorem sessionAvgSpeed_handleAccelerometerData (newId : String)
    (r : AccelerometerReading) (s : AppState) :
    sessionAvgSpeed (handleAccelerometerData newId r s) = sessionAvgSpeed s := by
  cases hd : detectPothole r
  · rw [handleAccelerometerData_not_candidate newId r s hd]
    rfl
  · cases hloc : s.currentLocation with
    | none =>
      rw [handleAccelerometerData_no_location newId r s hloc]
      rfl
    | some l =>
      cases hsess : s.currentSession with
      | none =>
        rw [handleAccelerometerData_no_session newId r s hsess]
        rfl
      | some sess =>
        rw [handleAccelerometerData_logs newId r l sess s hd hloc hsess]
        unfold sessionAvgSpeed
        rw [hsess]
        rfl

theorem sessionAvgSpeed_handleLocationData (d : LocationData → LocationData → ℚ)
    (loc : LocationData) (s : AppState) :
    sessionAvgSpeed (handleLocationData d loc s) = sessionAvgSpeed s := by
  cases hlast : s.lastLocation with
  | none =>
    rw [handleLocationData_no_accum d loc s (Or.inl hlast)]
    rfl
  | some prev =>
    cases hsess : s.currentSession with
    | none =>
      rw [handleLocationData_no_accum d loc s (Or.inr hsess)]
      rfl
    | some sess =>
      rw [handleLocationData_accum d loc prev sess s hlast hsess]
      unfold sessionAvgSpeed
      rw [hsess]
      rfl

theorem sessionAvgSpeed_confirmPothole (eventId : String) (s : AppState) :
    sessionAvgSpeed (confirmPothole eventId s) = sessionAvgSpeed s := by
  cases hsess : s.currentSession with
  | none => rw [confirmPothole_no_session eventId s hsess]
  | some sess =>
    cases hfind : sess.events.find? (fun x => x.id == eventId) with
    | none => rw [confirmPothole_not_found eventId s sess hsess hfind]
    | some e =>
      rw [confirmPothole_found eventId s sess e hsess hfind]
      unfold sessionAvgSpeed
      rw [hsess]
      rfl

theorem sessionAvgSpeed_markFalsePositive (eventId : String) (s : AppState) :
    sessionAvgSpeed (markFalsePositive eventId s) = sessionAvgSpeed s := by
  cases hsess : s.currentSession with
  | none => rw [markFalsePositive_no_session eventId s hsess]
  | some sess =>
    cases hfind : sess.events.find? (fun x => x.id == eventId) with
    | none => rw [markFalsePositive_not_found eventId s sess hsess hfind]
    | some e =>
      rw [markFalsePositive_found eventId s sess e hsess hfind]
      unfold sessionAvgSpeed
      rw [hsess]
      rfl

/-- C5: at session end the exported record's `averageSpeed` equals
`totalDistance / durationMinutes * 60` when the duration in minutes is
positive and `0` otherwise (with `durationMinutes = (now − startTime) /
1000 / 60`); the exported record also carries the accumulated distance and
the end timestamp.  No other operation ever writes `averageSpeed`
(`handleAccelerometerData`, `handleLocationData`, `confirmPothole`,
`markFalsePositive` all preserve it), so it is computed exactly once, at
session end. -/
theorem averageSpeed_computed_once_at_end (now : ℚ) (s : AppState)
    (sess : DrivingSession) (h : s.currentSession = some sess) :
    ((stopSession now s).2.map (fun x => x.averageSpeed)) =
      some (if 0 < (now - sess.startTime) / 1000 / 60
        then s.totalDistance / ((now - sess.startTime) / 1000 / 60) * 60
        else 0) ∧
    ((stopSession now s).2.map (fun x => x.totalDistance)) = some s.totalDistance ∧
    ((stopSession now s).2.map (fun x => x.endTime)) = some (some now) ∧
    (∀ newId r, sessionAvgSpeed (handleAccelerometerData newId r s) =
      sessionAvgSpeed s) ∧
    (∀ d loc, sessionAvgSpeed (handleLocationData d loc s) = sessionAvgSpeed s) ∧
    (∀ eventId, sessionAvgSpeed (confirmPothole eventId s) = sessionAvgSpeed s) ∧
    (∀ eventId, sessionAvgSpeed (markFalsePositive eventId s) =
      sessionAvgSpeed s) := by
  rw [stopSession_go now s sess h]
  exact ⟨rfl, rfl, rfl,
    fun newId r => sessionAvgSpeed_handleAccelerometerData newId r s,
    fun d loc => sessionAvgSpeed_handleLocationData d loc s,
    fun eventId => sessionAvgSpeed_confirmPothole eventId s,
    fun eventId => sessionAvgSpeed_markFalsePositive eventId s⟩

/-- Witness for C5: ending a 2-minute session with 1 km accumulated yields
an average speed of 30 km/h, and confirmation does not touch it. -/
theorem averageSpeed_computed_once_at_end_witness :
    ((stopSession 120000 activeWithDistance).2.map (fun x => x.averageSpeed)) =
      some 30 ∧
    sessionAvgSpeed (confirmPothole "e1" activeWithDistance) =
      sessionAvgSpeed activeWithDistance := by
  have h := averageSpeed_computed_once_at_end 120000 activeWithDistance
    sessionEmpty rfl
  constructor
  · rw [h.1]
    norm_num [sessionEmpty, activeWithDistance, activeEmpty, idleState]
  · exact h.2.2.2.2.2.1 "e1"

/-! ## The filtered alternate revision -/

/-- In the alternate revision of the accelerometer handler, a low-severity
candidate is not appended: this is the filtering policy the spec
describes, present in that revision only. -/
theorem lowSeverity_filtered_in_alternate_revision (newId : String)
    (r : AccelerometerReading) (s : AppState)
    (hsev : calculateSeverity r = .low) :
    sessionEvents (handleAccelerometerDataFiltered newId r s) =
      sessionEvents s := by
  unfold handleAccelerometerDataFiltered
  cases hd : detectPothole r
  · rfl
  · cases hloc : s.currentLocation with
    | none =>
      cases hsess : s.currentSession <;> simp [sessionEvents, hsess]
    | some l =>
      cases hsess : s.currentSession with
      | none => simp [sessionEvents, hsess]
      | some sess => simp [sessionEvents, hsess, hsev]

end PotholeDetector
